import Mathlib

/-!
Shallow embedding of the certificate-generation program (src/app.py) and proofs
about its core logic: unit conversion, font loading, the autofit scaler inside
`draw_name_on_template`, name placement, PDF serialization, and the batch
generation loop that writes the zip archive.

Python float arithmetic is idealized as exact rational arithmetic; the Python
`round` (round half to even) and `int` (truncation toward zero) are modelled
explicitly.
-/

namespace CertGen

/-- The Python function `round()` on a (float) value, modelled on exact rationals:
round to the nearest integer, ties going to the even integer. -/
def pyRound (q : ℚ) : ℤ :=
  if q - ⌊q⌋ < 1/2 then ⌊q⌋
  else if 1/2 < q - ⌊q⌋ then ⌊q⌋ + 1
  else if ⌊q⌋ % 2 = 0 then ⌊q⌋ else ⌊q⌋ + 1

/-- The Python function `int()` on a (float) value: truncation toward zero. -/
def pyInt (q : ℚ) : ℤ :=
  if 0 ≤ q then ⌊q⌋ else -⌊-q⌋

/-- Lemma: `pyRound` is within a half of its argument. -/
theorem pyRound_half (q : ℚ) : |(pyRound q : ℚ) - q| ≤ 1/2 := by
  have hf : ((⌊q⌋ : ℤ) : ℚ) ≤ q := Int.floor_le q
  have hf1 : q < ((⌊q⌋ : ℤ) : ℚ) + 1 := Int.lt_floor_add_one q
  unfold pyRound
  split
  · next h => rw [abs_le]; constructor <;> push_cast <;> linarith
  · next h =>
    split
    · next h2 => rw [abs_le]; constructor <;> push_cast <;> linarith
    · next h2 =>
      have he : q - (⌊q⌋ : ℚ) = 1/2 := le_antisymm (not_lt.mp h2) (not_lt.mp h)
      split
      · rw [abs_le]; constructor <;> push_cast <;> linarith
      · rw [abs_le]; constructor <;> push_cast <;> linarith

/-- Lemma: `pyRound q` is a nearest integer to `q`: no integer is strictly closer. -/
theorem pyRound_nearest (q : ℚ) (m : ℤ) :
    |(pyRound q : ℚ) - q| ≤ |(m : ℚ) - q| := by
  have hf : ((⌊q⌋ : ℤ) : ℚ) ≤ q := Int.floor_le q
  have hf1 : q < ((⌊q⌋ : ℤ) : ℚ) + 1 := Int.lt_floor_add_one q
  have hm1 : (m : ℚ) - q ≤ |(m : ℚ) - q| := le_abs_self _
  have hm2 : q - (m : ℚ) ≤ |(m : ℚ) - q| := by
    rw [abs_sub_comm]; exact le_abs_self _
  have hcases : (m : ℚ) ≤ ((⌊q⌋ : ℤ) : ℚ) ∨ ((⌊q⌋ : ℤ) : ℚ) + 1 ≤ (m : ℚ) := by
    rcases le_or_lt m ⌊q⌋ with h | h
    · exact Or.inl (by exact_mod_cast h)
    · right
      have : (⌊q⌋ + 1 : ℤ) ≤ m := h
      exact_mod_cast this
  unfold pyRound
  split
  · next h =>
    rw [abs_le]
    rcases hcases with hc | hc <;> constructor <;> push_cast <;> push_cast at hc <;> linarith
  · next h =>
    split
    · next h2 =>
      rw [abs_le]
      rcases hcases with hc | hc <;> constructor <;> push_cast <;> push_cast at hc <;> linarith
    · next h2 =>
      have he : q - (⌊q⌋ : ℚ) = 1/2 := le_antisymm (not_lt.mp h2) (not_lt.mp h)
      split
      · rw [abs_le]
        rcases hcases with hc | hc <;> constructor <;> push_cast <;> push_cast at hc <;> linarith
      · rw [abs_le]
        rcases hcases with hc | hc <;> constructor <;> push_cast <;> push_cast at hc <;> linarith

/-- On nonnegative arguments, Python `int()` truncation agrees with the floor. -/
theorem pyInt_eq_floor (q : ℚ) (h : 0 ≤ q) : pyInt q = ⌊q⌋ := by
  unfold pyInt
  rw [if_pos h]

/-- Constant `DPI = 300` (src/app.py line 60). -/
def DPI : ℕ := 300

/-- Model of `cm_to_px` (src/app.py lines 63-64): `int(round((cm / 2.54) * dpi))`.
`round` on the float is modelled by `pyRound` on the exact rational value;
`int()` applied to the already-integral result of `round` is the identity. -/
def cm_to_px (cm : ℚ) (dpi : ℕ) : ℤ :=
  pyRound (cm / 2.54 * dpi)

/-- C8: for every centimeter value `cm` and every dpi, `cm_to_px cm dpi` equals
`round(cm / 2.54 * dpi)` — the rounding of the exact value, which is a nearest
integer to `cm / 2.54 * dpi` (within a half, and no integer is closer). The
function is a total Lean function with no failure modes by construction. -/
theorem cm_to_px_spec (cm : ℚ) (dpi : ℕ) :
    cm_to_px cm dpi = pyRound (cm / 2.54 * dpi) ∧
    |((cm_to_px cm dpi : ℤ) : ℚ) - cm / 2.54 * dpi| ≤ 1/2 ∧
    ∀ m : ℤ, |((cm_to_px cm dpi : ℤ) : ℚ) - cm / 2.54 * dpi| ≤ |(m : ℚ) - cm / 2.54 * dpi| := by
  refine ⟨rfl, ?_, ?_⟩
  · exact pyRound_half _
  · intro m
    exact pyRound_nearest _ m

/-- A PIL font as far as the pipeline observes it: either a TrueType font
carrying its pixel size (`ImageFont.truetype(path, px)` exposes `.size`), or the
size-less built-in bitmap font returned by `ImageFont.load_default()`. -/
inductive PILFont
  | truetype (px : ℤ)
  | builtin
deriving DecidableEq

/-- Facts about the font file that `load_font` and the scaler branch on:
whether `font_path.exists()` holds, and whether `ImageFont.truetype` raises
when asked to load that path. -/
structure FontEnv where
  pathExists : Bool
  ttRaises : Bool
deriving DecidableEq

/-- Model of `load_font` (src/app.py lines 92-101): compute
`font_px = max(8, int(round(font_pt * DPI / 72.0)))`; if the font path exists,
return `ImageFont.truetype(path, font_px)`; any exception inside the `try`
(in particular a failing `truetype` load) is swallowed, and the function falls
through to `ImageFont.load_default()`. -/
def load_font (env : FontEnv) (font_pt : ℤ) : PILFont :=
  if env.pathExists && !env.ttRaises then
    PILFont.truetype (max 8 (pyRound ((font_pt : ℚ) * 300 / 72)))
  else
    PILFont.builtin

/-- C9: `load_font` is total — it always returns a usable font and never
propagates an exception.  The result is either the built-in default font, or a
TrueType font whose pixel size is `max(8, round(font_pt * 300 / 72))`; the
TrueType branch is taken exactly when the path exists and the loader does not
raise, and every TrueType result has pixel size at least 8. -/
theorem load_font_total (env : FontEnv) (font_pt : ℤ) :
    (load_font env font_pt = PILFont.builtin ∨
      load_font env font_pt =
        PILFont.truetype (max 8 (pyRound ((font_pt : ℚ) * 300 / 72)))) ∧
    (env.pathExists = true → env.ttRaises = false →
      load_font env font_pt =
        PILFont.truetype (max 8 (pyRound ((font_pt : ℚ) * 300 / 72)))) ∧
    ((env.pathExists = false ∨ env.ttRaises = true) →
      load_font env font_pt = PILFont.builtin) ∧
    (∀ px, load_font env font_pt = PILFont.truetype px → 8 ≤ px) := by
  unfold load_font
  refine ⟨?_, ?_, ?_, ?_⟩
  · by_cases h : (env.pathExists && !env.ttRaises) = true
    · rw [if_pos h]; exact Or.inr rfl
    · rw [if_neg h]; exact Or.inl rfl
  · intro h1 h2
    rw [if_pos (by rw [h1, h2]; rfl)]
  · intro h
    have hb : (env.pathExists && !env.ttRaises) = false := by
      rcases h with h | h <;> simp [h]
    rw [hb]
    simp
  · intro px h
    by_cases hb : (env.pathExists && !env.ttRaises) = true
    · rw [if_pos hb] at h
      have : px = max 8 (pyRound ((font_pt : ℚ) * 300 / 72)) :=
        (PILFont.truetype.injEq _ _).mp h.symm
      rw [this]
      exact le_max_left _ _
    · rw [if_neg hb] at h
      exact absurd h (by simp)

/-- Witness for C9 at concrete inputs: with an existing, loadable font file and
`font_pt = 19`, `load_font` yields a TrueType font of pixel size
`max(8, round(19 * 300 / 72)) = 79`; with a missing file it yields the built-in
font. -/
theorem load_font_total_witness :
    load_font ⟨true, false⟩ 19 = PILFont.truetype 79 ∧
    load_font ⟨false, false⟩ 19 = PILFont.builtin := by
  constructor
  · have h := (load_font_total ⟨true, false⟩ 19).2.1 rfl rfl
    rw [h]
    norm_num [pyRound]
  · exact (load_font_total ⟨false, false⟩ 19).2.2.1 (Or.inl rfl)

/-- Result of the autofit fragment of `draw_name_on_template`: the font in use
after the fragment, the measured text extent in use after it, and the list of
pixel sizes at which the text was re-measured inside the fragment. -/
structure FitOutcome where
  font : PILFont
  textW : ℤ
  textH : ℤ
  remeasured : List ℤ
deriving DecidableEq

/-- The autofit scaler (src/app.py lines 130-143): the fragment of
`draw_name_on_template` starting at `if text_w > max_w_px:`. Given the current
font and the extent `(textW, textH)` measured at it, when the width exceeds the
cap it computes `scale = max_w_px / text_w` and
`new_font_px = max(8, int(font.size * scale))`, reloads the TrueType font at the
new size, and re-measures once. The fragment leaves everything unchanged when
the width fits; scaling also silently does not happen when the font has no
`.size` attribute (the built-in font), when `text_w == 0` (the
`ZeroDivisionError` from computing `scale` is swallowed by the bare `except`),
or when the font file no longer exists or fails to reload (the inner `if` is
skipped, or the exception is swallowed, keeping the old font and measurement).
`M` is the text-metrics collaborator (`draw.textbbox`). -/
def autofit (M : PILFont → String → ℤ × ℤ) (env : FontEnv) (name : String)
    (font : PILFont) (textW textH maxW : ℤ) : FitOutcome :=
  if maxW < textW then
    match font with
    | PILFont.truetype px =>
      if textW = 0 then ⟨font, textW, textH, []⟩
      else if env.pathExists && !env.ttRaises then
        ⟨PILFont.truetype (max 8 (pyInt ((px : ℚ) * maxW / textW))),
         (M (PILFont.truetype (max 8 (pyInt ((px : ℚ) * maxW / textW)))) name).1,
         (M (PILFont.truetype (max 8 (pyInt ((px : ℚ) * maxW / textW)))) name).2,
         [max 8 (pyInt ((px : ℚ) * maxW / textW))]⟩
      else ⟨font, textW, textH, []⟩
    | PILFont.builtin => ⟨font, textW, textH, []⟩
  else ⟨font, textW, textH, []⟩

/-- C1: the autofit scaler, with a loadable TrueType font of pixel size
`px ≥ 8` (as `load_font` produces) and a nonnegative width cap: if the measured
width fits the cap, the font — hence the size — is returned unchanged with no
re-measurement; otherwise the chosen size is `max 8 ⌊px * maxW / textW⌋`, the
text is re-measured exactly once, at the chosen size; and the resulting size is
never below 8, whatever the measured width of the name was. -/
theorem autofit_spec (M : PILFont → String → ℤ × ℤ) (env : FontEnv) (name : String)
    (px textW textH maxW : ℤ)
    (hpath : env.pathExists = true) (hraise : env.ttRaises = false)
    (hpx : 8 ≤ px) (hmw : 0 ≤ maxW) :
    (textW ≤ maxW →
      autofit M env name (PILFont.truetype px) textW textH maxW
        = ⟨PILFont.truetype px, textW, textH, []⟩) ∧
    (maxW < textW →
      autofit M env name (PILFont.truetype px) textW textH maxW
        = ⟨PILFont.truetype (max 8 ⌊(px : ℚ) * maxW / textW⌋),
           (M (PILFont.truetype (max 8 ⌊(px : ℚ) * maxW / textW⌋)) name).1,
           (M (PILFont.truetype (max 8 ⌊(px : ℚ) * maxW / textW⌋)) name).2,
           [max 8 ⌊(px : ℚ) * maxW / textW⌋]⟩) ∧
    (∀ px2, (autofit M env name (PILFont.truetype px) textW textH maxW).font
        = PILFont.truetype px2 → 8 ≤ px2) := by
  have henv : (env.pathExists && !env.ttRaises) = true := by
    rw [hpath, hraise]; rfl
  have h1 : textW ≤ maxW →
      autofit M env name (PILFont.truetype px) textW textH maxW
        = ⟨PILFont.truetype px, textW, textH, []⟩ := by
    intro h
    unfold autofit
    rw [if_neg (not_lt.mpr h)]
  have h2 : maxW < textW →
      autofit M env name (PILFont.truetype px) textW textH maxW
        = ⟨PILFont.truetype (max 8 ⌊(px : ℚ) * maxW / textW⌋),
           (M (PILFont.truetype (max 8 ⌊(px : ℚ) * maxW / textW⌋)) name).1,
           (M (PILFont.truetype (max 8 ⌊(px : ℚ) * maxW / textW⌋)) name).2,
           [max 8 ⌊(px : ℚ) * maxW / textW⌋]⟩ := by
    intro h
    have htw : (0 : ℤ) < textW := lt_of_le_of_lt hmw h
    have hq : (0 : ℚ) ≤ (px : ℚ) * maxW / textW := by
      apply div_nonneg
      · apply mul_nonneg
        · exact_mod_cast le_trans (by norm_num) hpx
        · exact_mod_cast hmw
      · exact_mod_cast le_of_lt htw
    unfold autofit
    rw [if_pos h]
    show (if textW = 0 then _ else _) = _
    rw [if_neg (by omega), if_pos henv, pyInt_eq_floor _ hq]
  refine ⟨h1, h2, ?_⟩
  intro px2 hfont
  by_cases h : maxW < textW
  · rw [h2 h] at hfont
    have h3 : PILFont.truetype (max 8 ⌊(px : ℚ) * maxW / textW⌋)
        = PILFont.truetype px2 := hfont
    injection h3 with h4
    rw [← h4]
    exact le_max_left _ _
  · rw [h1 (not_lt.mp h)] at hfont
    have h3 : PILFont.truetype px = PILFont.truetype px2 := hfont
    injection h3 with h4
    omega

/-- Witness for C1 at concrete inputs: metrics giving width `25·px`, a TrueType
font of size 80 measuring 2000 px against a cap of 1890 px: the chosen size is
`max 8 ⌊80·1890/2000⌋ = 75`, re-measured once to 1875 px. -/
theorem autofit_spec_witness :
    autofit (fun f _ => match f with
        | PILFont.truetype px => (25 * px, px)
        | PILFont.builtin => (100, 11))
      ⟨true, false⟩ "CERT" (PILFont.truetype 80) 2000 80 1890
      = ⟨PILFont.truetype 75, 1875, 75, [75]⟩ := by
  have h := (autofit_spec (fun f _ => match f with
        | PILFont.truetype px => (25 * px, px)
        | PILFont.builtin => (100, 11))
      ⟨true, false⟩ "CERT" 80 2000 80 1890 rfl rfl (by norm_num) (by norm_num)).2.1
      (by norm_num)
  rw [h]
  norm_num

/-- The placement data computed by `draw_name_on_template`
(src/app.py lines 103-154): the final font, the final measured extent, the
anchor pixel coordinates, and the top-left draw origin. `remeasured` records
the re-measurement performed by the autofit fragment. -/
structure DrawResult where
  font : PILFont
  textW : ℤ
  textH : ℤ
  xPx : ℤ
  yPx : ℤ
  drawX : ℤ
  drawY : ℤ
  remeasured : List ℤ
deriving DecidableEq

/-- The geometry computed by `draw_name_on_template` (src/app.py lines 103-154):
the first page is rasterized at `DPI = 300`, giving a page of height `pageH`
pixels; the font is loaded with `load_font`; `x_px = cm_to_px(x_cm)` and
`y_px = img.height - cm_to_px(y_cm)` (the `y_cm` anchor is measured from the
bottom edge); the text is measured (`draw.textbbox`, modelled by `M`), run
through the autofit fragment against `max_w_px = cm_to_px(max_width_cm)`, and
the draw origin is `draw_x = int(round(x_px - text_w / 2.0))`,
`draw_y = int(round(y_px - text_h / 2.0))` (`int()` on the integral result of
`round` is the identity). The outline-and-fill painting then happens at that
origin and does not alter the computed placement. -/
def draw_name_on_template (M : PILFont → String → ℤ × ℤ) (env : FontEnv)
    (pageH : ℤ) (name : String) (x_cm y_cm : ℚ) (font_size_pt : ℤ)
    (max_width_cm : ℚ) : DrawResult :=
  let font := load_font env font_size_pt
  let x_px := cm_to_px x_cm DPI
  let y_px := pageH - cm_to_px y_cm DPI
  let m := M font name
  let fit := autofit M env name font m.1 m.2 (cm_to_px max_width_cm DPI)
  ⟨fit.font, fit.textW, fit.textH, x_px, y_px,
   pyRound ((x_px : ℚ) - fit.textW / 2), pyRound ((y_px : ℚ) - fit.textH / 2),
   fit.remeasured⟩

/-- The rounded midpoint-centering property: placing the left edge at
`round(x - w/2)` puts the midpoint of the box within half a pixel of `x`. -/
theorem pyRound_center_half (x w : ℤ) :
    |(pyRound ((x : ℚ) - w / 2) : ℚ) + w / 2 - x| ≤ 1/2 := by
  have hp := pyRound_half ((x : ℚ) - w / 2)
  have he : (pyRound ((x : ℚ) - w / 2) : ℚ) + w / 2 - x
      = (pyRound ((x : ℚ) - w / 2) : ℚ) - ((x : ℚ) - w / 2) := by ring
  rw [he]
  exact hp

/-- C6: the vertical anchor in centimeters is measured from the bottom edge, so
the native y coordinate is `pageH - cm_to_px y_cm`; the top-left draw origin is
`draw_x = round(x_px - w/2)`, `draw_y = round(y_px - h/2)` for the measured
extent `(w, h)`, so the measured bounding box is centered on the anchor to
within half a pixel on each axis. -/
theorem draw_name_placement (M : PILFont → String → ℤ × ℤ) (env : FontEnv)
    (pageH : ℤ) (name : String) (x_cm y_cm : ℚ) (pt : ℤ) (mw : ℚ) :
    let r := draw_name_on_template M env pageH name x_cm y_cm pt mw
    r.yPx = pageH - cm_to_px y_cm DPI ∧
    r.xPx = cm_to_px x_cm DPI ∧
    r.drawX = pyRound ((r.xPx : ℚ) - r.textW / 2) ∧
    r.drawY = pyRound ((r.yPx : ℚ) - r.textH / 2) ∧
    |(r.drawX : ℚ) + r.textW / 2 - r.xPx| ≤ 1/2 ∧
    |(r.drawY : ℚ) + r.textH / 2 - r.yPx| ≤ 1/2 := by
  dsimp only [draw_name_on_template]
  exact ⟨rfl, rfl, rfl, rfl, pyRound_center_half _ _, pyRound_center_half _ _⟩

/-- The rendered page image: the rasterized first page of the template plus the
name composited at the computed placement. Stands for the pixel content of the
PIL image returned by `draw_name_on_template`; `tpl` identifies the template
bytes that were rasterized (`page.get_pixmap(dpi=DPI)` is deterministic in
them). -/
structure RenderedPage where
  tpl : ℕ
  name : String
  place : DrawResult
deriving DecidableEq

/-- The drawing stage for one certificate: rasterize the template at
`DPI = 300` and draw the name at the computed placement. No clock or random
source is read anywhere inside `draw_name_on_template`. -/
def render_page (M : PILFont → String → ℤ × ℤ) (env : FontEnv) (tpl : ℕ)
    (pageH : ℤ) (name : String) (x_cm y_cm : ℚ) (pt : ℤ) (mw : ℚ) :
    RenderedPage :=
  ⟨tpl, name, draw_name_on_template M env pageH name x_cm y_cm pt mw⟩

/-- A serialized single-page PDF as produced by
`img.convert("RGB").save(out, format="PDF")`: the encoded page together with
the document-information entries PIL writes into the file. -/
structure PdfFile where
  page : RenderedPage
  creationDate : ℕ
  modDate : ℕ
deriving DecidableEq

/-- Model of `image_to_pdf_bytes` (src/app.py lines 156-159). The PIL PDF serializer
(`PdfImagePlugin._save`) fills the document info from its defaults when the
caller passes no override and the file is not being appended: `creationDate`
and `modDate` default to `time.gmtime()`, the current UTC time. The repository
passes no override, so the emitted bytes embed the serialization time; `now` is
that clock reading. -/
def image_to_pdf_bytes (now : ℕ) (img : RenderedPage) : PdfFile :=
  ⟨img, now, now⟩

/-- The per-certificate pipeline: rasterization → drawing → PDF serialization
(`draw_name_on_template` then `image_to_pdf_bytes`). `now` is the process clock
at serialization time and `rand` the state of the `random` module; the pipeline
reads the clock only inside the PIL PDF serializer and never reads `rand` (the
app uses `random` only to pick joke error messages in the UI). -/
def render_pipeline (now rand : ℕ) (M : PILFont → String → ℤ × ℤ)
    (env : FontEnv) (tpl : ℕ) (pageH : ℤ) (name : String) (x_cm y_cm : ℚ)
    (pt : ℤ) (mw : ℚ) : PdfFile :=
  image_to_pdf_bytes now (render_page M env tpl pageH name x_cm y_cm pt mw)

/-- C7 fails as stated: rendering the same (template, name, placement, font)
tuple at two different clock readings yields different PDF bytes, because the
serializer stamps `/CreationDate` and `/ModDate` from the current time. -/
theorem render_pipeline_counterexample :
    render_pipeline 0 0 (fun _ _ => (0, 0)) ⟨true, false⟩ 1 2339 "Alice"
        10.46 16.50 19 16 ≠
      render_pipeline 1 0 (fun _ _ => (0, 0)) ⟨true, false⟩ 1 2339 "Alice"
        10.46 16.50 19 16 := by
  intro h
  have h2 := congrArg PdfFile.creationDate h
  simp [render_pipeline, image_to_pdf_bytes] at h2

/-- C7 amended: the drawing stage is deterministic — its output is independent
of both the clock and the random state — and the serialized PDF is
byte-identical across two renders exactly when the embedded timestamps agree:
given the same clock reading, the two outputs are equal. -/
theorem render_pipeline_deterministic (now1 now2 rand1 rand2 : ℕ)
    (M : PILFont → String → ℤ × ℤ) (env : FontEnv) (tpl : ℕ) (pageH : ℤ)
    (name : String) (x_cm y_cm : ℚ) (pt : ℤ) (mw : ℚ) :
    (render_pipeline now1 rand1 M env tpl pageH name x_cm y_cm pt mw).page
      = (render_pipeline now2 rand2 M env tpl pageH name x_cm y_cm pt mw).page ∧
    (now1 = now2 →
      render_pipeline now1 rand1 M env tpl pageH name x_cm y_cm pt mw
        = render_pipeline now2 rand2 M env tpl pageH name x_cm y_cm pt mw) := by
  refine ⟨rfl, ?_⟩
  intro h
  rw [h]
  rfl

/-- Witness for the amended C7: two renders with equal clock readings but
different random states produce identical bytes. -/
theorem render_pipeline_deterministic_witness :
    render_pipeline 5 3 (fun _ _ => (0, 0)) ⟨true, false⟩ 1 2339 "Alice"
        10.46 16.50 19 16
      = render_pipeline 5 8 (fun _ _ => (0, 0)) ⟨true, false⟩ 1 2339 "Alice"
        10.46 16.50 19 16 :=
  (render_pipeline_deterministic 5 5 3 8 (fun _ _ => (0, 0)) ⟨true, false⟩ 1
    2339 "Alice" 10.46 16.50 19 16).2 rfl

/-- The whitespace characters of Python `str.strip()` (ASCII range; the name cells the app reads are Latin-script strings). -/
def isPySpace (c : Char) : Bool :=
  c == ' ' || c == '\t' || c == '\n' || c == '\r' || c == '\x0b' || c == '\x0c'

/-- Python `str.strip()`: remove leading and trailing whitespace. -/
def pyStrip (s : String) : String :=
  String.mk (((s.data.dropWhile isPySpace).reverse.dropWhile isPySpace).reverse)

/-- Python `str.replace(old, new)` for a one-character pattern and one-character
replacement: every occurrence of the pattern character is replaced, which for
one-character patterns is exactly a per-character map. -/
def replaceChar (s : String) (old new : Char) : String :=
  String.mk (s.data.map (fun c => if c = old then new else c))

/-- Model of `safe_name = str(name).replace("/", "_").replace("\\", "_")`
(src/app.py lines 454 and 468). -/
def sanitize (name : String) : String :=
  replaceChar (replaceChar name '/' '_') '\\' '_'

/-- The payload of one archive member written by the generation loop: a
rendered pdf, or the error text written for a failed item. -/
inductive ZipContent (α : Type)
  | pdf (bytes : α)
  | errtxt (msg : String)
deriving DecidableEq

/-- An archive member as written by `zf.writestr(path, ...)`, tagged
(model-level bookkeeping, not part of the archive bytes) with the (group, name)
task whose loop iteration wrote it. -/
structure ZipEntry (α : Type) where
  path : String
  group : String
  name : String
  content : ZipContent α
deriving DecidableEq

/-- The generation-loop state: the `used_zip_names` Counter, the archive
members in write order, and — model-level bookkeeping — the tasks for which the
`try` body (template pick, render, serialize) has been entered. -/
structure LoopState (α : Type) where
  used : String → ℕ
  entries : List (ZipEntry α)
  invoked : List (String × String)

/-- Initial loop state: `used_zip_names = Counter()` and an empty archive, before the loop starts
(src/app.py lines 423-426). -/
def initState (α : Type) : LoopState α :=
  ⟨fun _ => 0, [], []⟩

/-- One iteration of the generation loop (src/app.py lines 427-473) for the
task `(g, n)`. `R g n` models the fallible body of the `try` block — picking
the template bytes, `draw_name_on_template`, `image_to_pdf_bytes` — returning
the pdf bytes or the message of the raised exception. On success the zip path is
`f"{folder}/{safe_name}.pdf"`, switched to
`f"{folder}/{safe_name}_{suffix}.pdf"` with
`suffix = used_zip_names[zip_path] + 1` when the base path was used before, and
then `used_zip_names[zip_path] += 1` increments the counter of the
possibly-suffixed path. On exception, the member
`f"{folder}/{safe_name}_ERROR.txt"` is written with the message
`f"Failed to generate for {name}: {e}"`, and the counter is not consulted or
updated. Progress-bar updates and `time.sleep` do not affect this state. -/
def stepTask {α : Type} (R : String → String → Except String α)
    (st : LoopState α) (g n : String) : LoopState α :=
  match R g n with
  | Except.ok pdf =>
    let base := g ++ "/" ++ sanitize n ++ ".pdf"
    let path := if st.used base > 0
      then g ++ "/" ++ sanitize n ++ "_" ++ toString (st.used base + 1) ++ ".pdf"
      else base
    ⟨fun p => if p = path then st.used p + 1 else st.used p,
     st.entries ++ [⟨path, g, n, ZipContent.pdf pdf⟩],
     st.invoked ++ [(g, n)]⟩
  | Except.error e =>
    ⟨st.used,
     st.entries ++ [⟨g ++ "/" ++ sanitize n ++ "_ERROR.txt", g, n,
       ZipContent.errtxt ("Failed to generate for " ++ n ++ ": " ++ e)⟩],
     st.invoked ++ [(g, n)]⟩

/-- The generation loop (src/app.py line 427): fold `stepTask` over the task
list in order. Total by construction: both renderer outcomes are handled inside
`stepTask`, so no exception escapes the loop. -/
def runTasks {α : Type} (R : String → String → Except String α) :
    List (String × String) → LoopState α → LoopState α
  | [], st => st
  | t :: ts, st => runTasks R ts (stepTask R st t.1 t.2)

/-- The member payload the loop records for a task, as a function of the
renderer outcome alone (the path is excluded: it additionally depends on the
collision counter). -/
def expectedContent {α : Type} (R : String → String → Except String α)
    (g n : String) : ZipContent α :=
  match R g n with
  | Except.ok pdf => ZipContent.pdf pdf
  | Except.error e =>
    ZipContent.errtxt ("Failed to generate for " ++ n ++ ": " ++ e)

/-- Task-list construction (src/app.py lines 387-403): for each selected group,
the first column of its sheet — already `dropna()`d and cast to `str`, giving
the input name lists — is appended as `(group, name.strip())` pairs, groups in
the fixed order QUALIFIED, PARTICIPATED, SMART_EDGE_WORKSHOP. No emptiness or
whitespace check is applied to individual names. -/
def buildTasks (gen_q gen_p gen_s : Bool)
    (q_names p_names s_names : List String) : List (String × String) :=
  (if gen_q then q_names.map (fun n => ("QUALIFIED", pyStrip n)) else []) ++
  (if gen_p then p_names.map (fun n => ("PARTICIPATED", pyStrip n)) else []) ++
  (if gen_s then s_names.map (fun n => ("SMART_EDGE_WORKSHOP", pyStrip n)) else [])

/-- Unfolding lemma: the payload recorded for a succeeding task. -/
theorem expectedContent_ok {α : Type} (R : String → String → Except String α)
    (g n : String) (b : α) (h : R g n = Except.ok b) :
    expectedContent R g n = ZipContent.pdf b := by
  unfold expectedContent
  rw [h]

/-- Unfolding lemma: the payload recorded for a failing task. -/
theorem expectedContent_err {α : Type} (R : String → String → Except String α)
    (g n m : String) (h : R g n = Except.error m) :
    expectedContent R g n
      = ZipContent.errtxt ("Failed to generate for " ++ n ++ ": " ++ m) := by
  unfold expectedContent
  rw [h]

/-- Running the loop appends, per task in order, exactly one member whose
(group, name, payload) is determined by the renderer outcome for that task. -/
theorem runTasks_entries_proj {α : Type} (R : String → String → Except String α)
    (tasks : List (String × String)) (st : LoopState α) :
    (runTasks R tasks st).entries.map (fun e => (e.group, e.name, e.content))
      = st.entries.map (fun e => (e.group, e.name, e.content))
        ++ tasks.map (fun t => (t.1, t.2, expectedContent R t.1 t.2)) := by
  induction tasks generalizing st with
  | nil => simp [runTasks]
  | cons t ts ih =>
    rw [runTasks, ih]
    cases h : R t.1 t.2 with
    | ok pdf => simp [stepTask, h, expectedContent]
    | error e => simp [stepTask, h, expectedContent]

/-- The loop enters the `try` body — invoking the renderer — for every task, in
order. -/
theorem runTasks_invoked {α : Type} (R : String → String → Except String α)
    (tasks : List (String × String)) (st : LoopState α) :
    (runTasks R tasks st).invoked = st.invoked ++ tasks := by
  induction tasks generalizing st with
  | nil => simp [runTasks]
  | cons t ts ih =>
    rw [runTasks, ih]
    cases h : R t.1 t.2 with
    | ok pdf => simp [stepTask, h]
    | error e => simp [stepTask, h]

/-- A base pdf path never coincides with a suffixed pdf path for the same
sanitized name (they differ in length). -/
theorem base_ne_suffixed (g s t : String) :
    g ++ "/" ++ s ++ ".pdf" ≠ g ++ "/" ++ s ++ "_" ++ t ++ ".pdf" := by
  intro h
  have h2 := congrArg String.length h
  simp [String.length_append] at h2
  have h3 : ("_" : String).length = 1 := rfl
  omega

/-- C3: for every renderer behavior and every task list, the batch loop yields
exactly one archive member per input task, in input order — the i-th member is
tagged with the i-th task and holds the pdf bytes when the body succeeded, or
an error text naming the offending name when it raised — so no input yields
zero or two outcomes, a failure does not stop the following tasks, and no
exception escapes the loop (`runTasks` is a total function handling both
renderer outcomes). -/
theorem batch_outcomes {α : Type} (R : String → String → Except String α)
    (tasks : List (String × String)) :
    (runTasks R tasks (initState α)).entries.map
        (fun e => (e.group, e.name, e.content))
      = tasks.map (fun t => (t.1, t.2, expectedContent R t.1 t.2)) ∧
    (runTasks R tasks (initState α)).entries.length = tasks.length := by
  have h := runTasks_entries_proj R tasks (initState α)
  simp only [initState, List.map_nil, List.nil_append] at h
  refine ⟨h, ?_⟩
  have h2 := congrArg List.length h
  simpa using h2

/-- C2 fails on the code: a whitespace-only name is not rejected before
rendering — task construction strips it to the empty string and keeps it, the
loop passes it to the renderer (`invoked` records the `try` body running for
it), and, rendering succeeding as it does for the empty string, it is recorded
as an ordinary success member `QUALIFIED/.pdf`. No input-error failure is
recorded anywhere. -/
theorem empty_name_counterexample :
    buildTasks true false false [" "] [] [] = [("QUALIFIED", "")] ∧
    (runTasks (fun _ _ => (Except.ok 0 : Except String ℕ))
        (buildTasks true false false [" "] [] []) (initState ℕ)).invoked
      = [("QUALIFIED", "")] ∧
    (runTasks (fun _ _ => (Except.ok 0 : Except String ℕ))
        (buildTasks true false false [" "] [] []) (initState ℕ)).entries
      = [⟨"QUALIFIED/.pdf", "QUALIFIED", "", ZipContent.pdf 0⟩] := by
  refine ⟨by decide, by decide, by decide⟩

/-- C2 amended: a name that is empty or whitespace-only after trimming is NOT
rejected before rendering: `buildTasks` strips it to `""` and schedules it like
any other name, the batch loop passes it to the renderer, and its single
recorded outcome is whatever the renderer returns — an ordinary success member
when rendering succeeds (as it does for the empty string, drawing nothing).
There is no input-error failure category. -/
theorem empty_name_amended {α : Type} (R : String → String → Except String α)
    (w : String) (hw : w.data.all isPySpace = true) :
    pyStrip w = "" ∧
    buildTasks true false false [w] [] [] = [("QUALIFIED", "")] ∧
    (runTasks R (buildTasks true false false [w] [] []) (initState α)).invoked
      = [("QUALIFIED", "")] ∧
    (runTasks R (buildTasks true false false [w] [] []) (initState α)).entries.map
        (fun e => (e.group, e.name, e.content))
      = [("QUALIFIED", "", expectedContent R "QUALIFIED" "")] := by
  have hs : pyStrip w = "" := by
    unfold pyStrip
    have h1 : w.data.dropWhile isPySpace = [] := by
      rw [List.dropWhile_eq_nil_iff]
      intro x hx
      exact List.all_eq_true.mp hw x hx
    rw [h1]
    rfl
  have hb : buildTasks true false false [w] [] [] = [("QUALIFIED", "")] := by
    simp [buildTasks, hs]
  refine ⟨hs, hb, ?_, ?_⟩
  · rw [hb, runTasks_invoked]
    rfl
  · rw [hb, runTasks_entries_proj]
    rfl

/-- Witness for the amended C2, at the whitespace-only name `" "` and an
always-succeeding renderer. -/
theorem empty_name_amended_witness :
    pyStrip " " = "" ∧
    buildTasks true false false [" "] [] [] = [("QUALIFIED", "")] ∧
    (runTasks (fun _ _ => (Except.ok 7 : Except String ℕ))
        (buildTasks true false false [" "] [] []) (initState ℕ)).invoked
      = [("QUALIFIED", "")] ∧
    (runTasks (fun _ _ => (Except.ok 7 : Except String ℕ))
        (buildTasks true false false [" "] [] []) (initState ℕ)).entries.map
        (fun e => (e.group, e.name, e.content))
      = [("QUALIFIED", "",
          expectedContent (fun _ _ => (Except.ok 7 : Except String ℕ))
            "QUALIFIED" "")] :=
  empty_name_amended (fun _ _ => (Except.ok 7 : Except String ℕ)) " " (by decide)

/-- C4 fails on the code: sanitization does NOT collapse whitespace (`"A B"`
keeps its space and differs from `"A_B"`; nor is there any truncation), and on
the third occurrence of a colliding base filename within a group the suffix is
`_2` again — not `_3` — because the collision counter is incremented for the
suffixed path instead of the base path. -/
theorem sanitize_counterexample :
    sanitize "A B" = "A B" ∧
    sanitize "A B" ≠ "A_B" ∧
    (runTasks (fun _ _ => (Except.ok 0 : Except String ℕ))
        [("G", "A/B"), ("G", "A\\B"), ("G", "A_B")] (initState ℕ)).entries.map
        (fun e => e.path)
      = ["G/A_B.pdf", "G/A_B_2.pdf", "G/A_B_2.pdf"] := by
  refine ⟨by decide, by decide, by decide⟩

/-- C4 amended: sanitization replaces the path separators `/` and `\` with `_`
and does nothing else — whitespace is preserved and there is no length
truncation. On a collision within a group, the second occurrence of a base
path receives the suffix `_2` instead of overwriting; but the counter then
records the suffixed path rather than the base path, so a third colliding
occurrence receives `_2` again — duplicating that archive path — rather than
`_3`. -/
theorem sanitize_amended {α : Type} (R : String → String → Except String α)
    (g n1 n2 n3 : String) (b1 b2 b3 : α)
    (h1 : R g n1 = Except.ok b1) (h2 : R g n2 = Except.ok b2)
    (h3 : R g n3 = Except.ok b3)
    (hs2 : sanitize n2 = sanitize n1) (hs3 : sanitize n3 = sanitize n1) :
    (∀ n, sanitize n = replaceChar (replaceChar n '/' '_') '\\' '_') ∧
    (runTasks R [(g, n1), (g, n2), (g, n3)] (initState α)).entries.map
        (fun e => e.path)
      = [g ++ "/" ++ sanitize n1 ++ ".pdf",
         g ++ "/" ++ sanitize n1 ++ "_2.pdf",
         g ++ "/" ++ sanitize n1 ++ "_2.pdf"] := by
  constructor
  · intro n
    rfl
  · have hne := base_ne_suffixed g (sanitize n1)
    have hfin : ∀ x : String, x ++ "_" ++ toString (2 : ℕ) ++ ".pdf" = x ++ "_2.pdf" := by
      intro x
      rw [String.append_assoc, String.append_assoc]
      rfl
    have hne2 : g ++ "/" ++ sanitize n1 ++ ".pdf" ≠ g ++ "/" ++ sanitize n1 ++ "_2.pdf" := by
      rw [← hfin]
      exact hne (toString 2)
    simp [runTasks, initState, stepTask, h1, h2, h3, hs2, hs3, hne, hfin, hne2]

/-- Witness for the amended C4: `"A/B"`, `"A\B"` and `"A_B"` all sanitize to
`"A_B"`; with a succeeding renderer the three archive paths are
`G/A_B.pdf`, `G/A_B_2.pdf` and `G/A_B_2.pdf` again. -/
theorem sanitize_amended_witness :
    sanitize "A/B" = replaceChar (replaceChar "A/B" '/' '_') '\\' '_' ∧
    (runTasks (fun _ _ => (Except.ok 1 : Except String ℕ))
        [("G", "A/B"), ("G", "A\\B"), ("G", "A_B")] (initState ℕ)).entries.map
        (fun e => e.path)
      = ["G" ++ "/" ++ sanitize "A/B" ++ ".pdf",
         "G" ++ "/" ++ sanitize "A/B" ++ "_2.pdf",
         "G" ++ "/" ++ sanitize "A/B" ++ "_2.pdf"] := by
  have h := sanitize_amended (fun _ _ => (Except.ok 1 : Except String ℕ))
    "G" "A/B" "A\\B" "A_B" 1 1 1 rfl rfl rfl (by decide) (by decide)
  exact ⟨h.1 "A/B", h.2⟩

/-- C10: the error path of the loop writes
`f"{group}/{safe_name}_ERROR.txt"` without consulting or updating the
collision counter, so the counter is unchanged by a failing item, and two
failing names in the same group whose sanitized forms coincide produce two
archive members with the identical path. -/
theorem error_entries_bypass_counter {α : Type}
    (R : String → String → Except String α) (st : LoopState α)
    (g n1 n2 m1 m2 : String)
    (h1 : R g n1 = Except.error m1) (h2 : R g n2 = Except.error m2)
    (hs : sanitize n2 = sanitize n1) :
    (stepTask R st g n1).used = st.used ∧
    (runTasks R [(g, n1), (g, n2)] st).entries
      = st.entries ++
        [⟨g ++ "/" ++ sanitize n1 ++ "_ERROR.txt", g, n1,
          ZipContent.errtxt ("Failed to generate for " ++ n1 ++ ": " ++ m1)⟩,
         ⟨g ++ "/" ++ sanitize n1 ++ "_ERROR.txt", g, n2,
          ZipContent.errtxt ("Failed to generate for " ++ n2 ++ ": " ++ m2)⟩] := by
  constructor
  · unfold stepTask
    rw [h1]
  · simp [runTasks, stepTask, h1, h2, hs]

/-- Witness for C10: two failing names `"A/B"` and `"A\B"` in group `"G"` both
yield the archive path `G/A_B_ERROR.txt`. -/
theorem error_entries_bypass_counter_witness :
    (runTasks (fun _ _ => (Except.error "boom" : Except String ℕ))
        [("G", "A/B"), ("G", "A\\B")] (initState ℕ)).entries
      = [⟨"G/A_B_ERROR.txt", "G", "A/B",
          ZipContent.errtxt "Failed to generate for A/B: boom"⟩,
         ⟨"G/A_B_ERROR.txt", "G", "A\\B",
          ZipContent.errtxt "Failed to generate for A\\B: boom"⟩] := by
  have h := (error_entries_bypass_counter
      (fun _ _ => (Except.error "boom" : Except String ℕ))
      (initState ℕ) "G" "A/B" "A\\B" "boom" "boom" rfl rfl (by decide)).2
  rw [h]
  decide

/-- Template bytes as the pipeline observes them: whether `fitz.open` accepts
them as a PDF document. -/
structure Tpl where
  valid : Bool
deriving DecidableEq

/-- The inputs of one certificate group at generation time: whether its checkbox is
selected, the template bytes resolved for it by `fetch_template_bytes`
(uploaded file, else default path, `none` when neither exists), and the name
list read from its sheet (first column, `dropna()`d, stringified). -/
structure GroupInput where
  selected : Bool
  tpl : Option Tpl
  names : List String

/-- The "Generate certificates ZIP" block (src/app.py lines 293-480), from the
selection and template checks to the zip loop, with the Excel and sheet
resolution (an external collaborator per the sheet-discovery pre-step) already
done and the names of each group supplied. `Option.none` models `st.stop()`: the
whole run halts with only an on-screen error, and no zip archive is produced.
In code order: nothing selected → stop (line 296); a selected group whose
template bytes are unavailable → stop (lines 342-358); no tasks → stop
(line 405); otherwise the loop runs over all tasks, picking the template bytes of each task by its group label (lines 443-448), and the archive member list
is produced. `R` models the fallible render-and-serialize body applied to the
picked template bytes (`fitz.open` raising on invalid bytes). -/
def generate {α : Type} (R : Option Tpl → String → Except String α)
    (q p s : GroupInput) : Option (List (ZipEntry α)) :=
  if !(q.selected || p.selected || s.selected) then none
  else if q.selected && q.tpl.isNone then none
  else if p.selected && p.tpl.isNone then none
  else if s.selected && s.tpl.isNone then none
  else
    let tasks := buildTasks q.selected p.selected s.selected q.names p.names s.names
    if tasks.isEmpty then none
    else
      some (runTasks
        (fun g n => R (if g = "QUALIFIED" then q.tpl
          else if g = "PARTICIPATED" then p.tpl else s.tpl) n)
        tasks (initState α)).entries

/-- C5 fails on the code: a group whose template cannot be obtained is not
terminal only for its own group — the missing template hits `st.stop()` before
the loop, aborting the entire run. Here SMART_EDGE has no template while
QUALIFIED has a valid one and a name: the claim demands a `Failure` entry for
`"Bob"` and a success for `"Alice"`, but the code produces no archive at all
(`none`), so the sibling group is not processed. -/
theorem template_stop_counterexample :
    generate (fun _ _ => (Except.ok 0 : Except String ℕ))
      ⟨true, some ⟨true⟩, ["Alice"]⟩ ⟨false, none, []⟩ ⟨true, none, ["Bob"]⟩
      = none := by
  rfl

/-- C5 amended: a selected group whose template bytes are unavailable aborts
the entire run before any rendering (`st.stop()`), producing no archive for any
group; it is only a template that is present but invalid (rejected by
`fitz.open`) that is terminal for just its own group — every name of that group
is recorded as a failure carrying the message of the raised exception, while a
sibling group with a valid template has all of its names succeed, in input
order. -/
theorem template_isolation_amended {α : Type}
    (R : Option Tpl → String → Except String α) (gt bt : Tpl)
    (qnames snames : List String) (pdfF : String → α) (emsg : String)
    (hgood : ∀ n, R (some gt) n = Except.ok (pdfF n))
    (hbad : ∀ n, R (some bt) n = Except.error emsg)
    (hne : qnames ≠ []) :
    (∀ (q p s : GroupInput), s.selected = true → s.tpl = none →
      generate R q p s = none) ∧
    (∃ es, generate R ⟨true, some gt, qnames⟩ ⟨false, none, []⟩
        ⟨true, some bt, snames⟩ = some es ∧
      es.map (fun e => (e.group, e.name, e.content))
        = qnames.map (fun n => ("QUALIFIED", pyStrip n,
            (ZipContent.pdf (pdfF (pyStrip n)) : ZipContent α)))
          ++ snames.map (fun n => ("SMART_EDGE_WORKSHOP", pyStrip n,
            (ZipContent.errtxt
              ("Failed to generate for " ++ pyStrip n ++ ": " ++ emsg)
              : ZipContent α)))) := by
  constructor
  · intro q p s hsel htpl
    unfold generate
    simp only [hsel, htpl, Bool.or_true, Bool.not_true, Option.isNone_none,
      Bool.and_true, Bool.false_eq_true, if_false]
    split_ifs <;> rfl
  · unfold generate
    simp only [Bool.or_false, Bool.or_true, Bool.not_true, Option.isNone_some,
      Bool.and_false, Bool.false_and, Bool.false_eq_true, if_false]
    have htasks : buildTasks true false true qnames [] snames
        = qnames.map (fun n => ("QUALIFIED", pyStrip n))
          ++ snames.map (fun n => ("SMART_EDGE_WORKSHOP", pyStrip n)) := by
      simp [buildTasks]
    rw [htasks]
    have hnonempty : (qnames.map (fun n => ("QUALIFIED", pyStrip n))
        ++ snames.map (fun n => ("SMART_EDGE_WORKSHOP", pyStrip n))).isEmpty
        = false := by
      cases qnames with
      | nil => exact absurd rfl hne
      | cons a l => rfl
    rw [hnonempty]
    simp only [Bool.false_eq_true, if_false]
    refine ⟨_, rfl, ?_⟩
    rw [runTasks_entries_proj]
    simp only [initState, List.map_nil, List.nil_append, List.map_append,
      List.map_map]
    congr 1
    · apply List.map_congr_left
      intro n _
      simp only [Function.comp]
      rw [expectedContent_ok _ _ _ (pdfF (pyStrip n)) (by
        show R (if ("QUALIFIED" : String) = "QUALIFIED" then some gt
          else if ("QUALIFIED" : String) = "PARTICIPATED" then none
          else some bt) (pyStrip n) = _
        rw [if_pos rfl]
        exact hgood _)]
    · apply List.map_congr_left
      intro n _
      simp only [Function.comp]
      rw [expectedContent_err _ _ _ emsg (by
        show R (if ("SMART_EDGE_WORKSHOP" : String) = "QUALIFIED" then some gt
          else if ("SMART_EDGE_WORKSHOP" : String) = "PARTICIPATED" then none
          else some bt) (pyStrip n) = _
        rw [if_neg (by decide), if_neg (by decide)]
        exact hbad _)]

/-- Witness for the amended C5: a renderer that succeeds on valid template
bytes and raises on invalid or absent ones; with the SMART_EDGE template missing
the run aborts, and with it present but invalid, the QUALIFIED name `"Alice"` succeeds
while the SMART_EDGE name `"Bob"` is recorded as a failure. -/
theorem template_isolation_amended_witness :
    generate
      (fun ot n => match ot with
        | some t => if t.valid then (Except.ok n.length : Except String ℕ)
            else Except.error "cannot open broken document"
        | none => Except.error "bad stream")
      ⟨true, some ⟨true⟩, ["Alice"]⟩ ⟨false, none, []⟩ ⟨true, none, ["Bob"]⟩
      = none ∧
    (∃ es, generate
      (fun ot n => match ot with
        | some t => if t.valid then (Except.ok n.length : Except String ℕ)
            else Except.error "cannot open broken document"
        | none => Except.error "bad stream")
      ⟨true, some ⟨true⟩, ["Alice"]⟩ ⟨false, none, []⟩
      ⟨true, some ⟨false⟩, ["Bob"]⟩ = some es ∧
      es.map (fun e => (e.group, e.name, e.content))
        = ["Alice"].map (fun n => ("QUALIFIED", pyStrip n,
            (ZipContent.pdf (pyStrip n).length : ZipContent ℕ)))
          ++ ["Bob"].map (fun n => ("SMART_EDGE_WORKSHOP", pyStrip n,
            (ZipContent.errtxt
              ("Failed to generate for " ++ pyStrip n
                ++ ": " ++ "cannot open broken document") : ZipContent ℕ)))) := by
  have h := template_isolation_amended
    (fun ot n => match ot with
      | some t => if t.valid then (Except.ok n.length : Except String ℕ)
          else Except.error "cannot open broken document"
      | none => Except.error "bad stream")
    ⟨true⟩ ⟨false⟩ ["Alice"] ["Bob"] (fun n => n.length)
    "cannot open broken document" (fun n => rfl) (fun n => rfl) (by decide)
  exact ⟨h.1 _ _ _ rfl rfl, h.2⟩

end CertGen
